import Mathlib

/-!
Verification of the rgirl memory-bus core (mmu.rs, keypad.rs, device.rs,
bindings/lgirl_py/src/env_api.rs) against its natural-language specification.

Machine bytes and 16-bit words are modelled as Nat with explicit reduction
modulo 256 / 65536 where the source's u8 / u16 types force wraparound.
Byte arrays that are only ever indexed (wram, zram, video memory, the mirror
buffer) are modelled as total maps Nat → Nat; a write is a pointwise update.
Code paths that panic in the source are modelled with Option (none = panic).
-/

set_option maxRecDepth 8192

namespace RGirl

/-- Pointwise update of a byte map: used to model array element assignment. -/
def upd (f : Nat → Nat) (k v : Nat) : Nat → Nat :=
  fun i => if i = k then v else f i

/-- Read one byte from a byte map, reduced to u8 range as the source's u8
loads force. -/
def rd8 (f : Nat → Nat) (a : Nat) : Nat := f a % 256

/-! ## Keypad (keypad.rs) -/

/-- State of the keypad register block, from struct Keypad in keypad.rs:
two active-low 4-bit rows, the visible data byte, and the interrupt
request bits. -/
structure Keypad where
  row0 : Nat
  row1 : Nat
  data : Nat
  interrupt : Nat

/-- The eight keys, from enum KeypadKey in keypad.rs. -/
inductive KeypadKey where
  | Right | Left | Up | Down | A | B | Select | Start
deriving DecidableEq

namespace Keypad

/-- Keypad::new in keypad.rs. -/
def new : Keypad := ⟨0x0F, 0x0F, 0xFF, 0⟩

/-- Keypad::rb in keypad.rs: reading returns the stored data byte. -/
def rb (k : Keypad) : Nat := k.data % 256

/-- The new visible nibble computed by Keypad::update in keypad.rs: start
from 0xF and AND in each row whose selector bit (active-low) is clear. -/
def newValues (k : Keypad) : Nat :=
  let nv1 := if k.data &&& 0x10 = 0 then 0xF &&& k.row0 else 0xF
  if k.data &&& 0x20 = 0 then nv1 &&& k.row1 else nv1

/-- Keypad::update in keypad.rs: recompute the visible low nibble from the
selected rows and raise interrupt bit 4 exactly on a transition of that
nibble from 0xF to non-0xF. -/
def update (k : Keypad) : Keypad :=
  let old_values := k.data &&& 0xF
  let new_values := newValues k
  let interrupt :=
    if old_values = 0xF ∧ new_values ≠ 0xF then k.interrupt ||| 0x10
    else k.interrupt
  { k with data := (k.data &&& 0xF0) ||| new_values, interrupt := interrupt }

/-- Keypad::wb in keypad.rs: only the two selector bits (0x30) of the data
byte are writable. -/
def wb (k : Keypad) (value : Nat) : Keypad :=
  update { k with data := (k.data &&& 0xCF) ||| (value &&& 0x30) }

/-- Keypad::set_mask in keypad.rs: atomically overwrite both rows from one
press mask (bit = 1 means pressed; rows are active-low). -/
def set_mask (k : Keypad) (mask : Nat) : Keypad :=
  let dir_mask := mask &&& 0x0F
  let btn_mask := (mask >>> 4) &&& 0x0F
  update { k with
    row0 := 0x0F &&& ((dir_mask &&& 0x0F) ^^^ 0xFF)
    row1 := 0x0F &&& ((btn_mask &&& 0x0F) ^^^ 0xFF) }

/-- The row-0 bit index of a key, from the match in Keypad::keydown. -/
def keyBit : KeypadKey → Nat × Nat
  | .Right => (0, 0) | .Left => (0, 1) | .Up => (0, 2) | .Down => (0, 3)
  | .A => (1, 0) | .B => (1, 1) | .Select => (1, 2) | .Start => (1, 3)

/-- Keypad::keydown in keypad.rs: clear the key's active-low row bit, then
refresh. -/
def keydown (k : Keypad) (key : KeypadKey) : Keypad :=
  let (r, i) := keyBit key
  update (if r = 0 then { k with row0 := k.row0 &&& ((1 <<< i) ^^^ 0xFF) }
          else { k with row1 := k.row1 &&& ((1 <<< i) ^^^ 0xFF) })

/-- Keypad::keyup in keypad.rs: set the key's active-low row bit, then
refresh. -/
def keyup (k : Keypad) (key : KeypadKey) : Keypad :=
  let (r, i) := keyBit key
  update (if r = 0 then { k with row0 := k.row0 ||| (1 <<< i) }
          else { k with row1 := k.row1 ||| (1 <<< i) })

end Keypad

/-! ## Console mode, speed and DMA mode (gbmode.rs is not under src/;
the three GbMode variants and two GbSpeed variants are modelled from the
spec's classic/color/color-as-classic session modes and single/double
speed, exactly as the src/ files pattern-match on them). -/

/-- Modelled from the spec: console mode selector (classic, color, and the
color-hardware-running-classic-cartridge mode produced by MMU::determine_mode);
gbmode.rs itself is not under src/. -/
inductive GbMode where
  | Classic | Color | ColorAsClassic
deriving DecidableEq

/-- Modelled from the spec: single/double speed multiplier; gbmode.rs is not
under src/. -/
inductive GbSpeed where
  | Single | Double
deriving DecidableEq

/-- The DMA transfer mode, from enum DMAType in mmu.rs. -/
inductive DMAType where
  | NoDMA | GDMA | HDMA
deriving DecidableEq

/-! ## MMU state (struct MMU in mmu.rs)

External collaborators whose sources are not under src/ (GPU, MBC, serial,
timer, sound) are modelled from the spec's byte-level collaborator
contracts: each is a byte map read at its addresses; a write to it is a
pointwise map update (for the cartridge controller, whose write semantics
the spec leaves to the polymorphic bank-switching strategy, writes are
recorded as a log instead of interpreted). -/

/-- The bus aggregate, from struct MMU in mmu.rs. The four hdma setup
registers are the fields hdma0–hdma3, the three undocumented registers are
undoc0–undoc2. -/
structure MMU where
  wram : Nat → Nat
  zram : Nat → Nat
  hdma0 : Nat
  hdma1 : Nat
  hdma2 : Nat
  hdma3 : Nat
  inte : Nat
  intf : Nat
  keypad : Keypad
  /-- Modelled from the spec: the video unit's register/VRAM/OAM byte store
  (gpu.rs is not under src/). -/
  gpuMap : Nat → Nat
  /-- Modelled from the spec: the video unit's accepts_dma_row() signal
  (gpu.rs is not under src/). -/
  gpuMayHdma : Bool
  /-- Modelled from the spec: serial collaborator byte store (serial.rs is
  not under src/). -/
  serialMap : Nat → Nat
  /-- Modelled from the spec: timer collaborator byte store (timer.rs is
  not under src/). -/
  timerMap : Nat → Nat
  /-- Modelled from the spec: optional audio collaborator byte store
  (sound.rs is not under src/); absent means open-bus defaults. -/
  sound : Option (Nat → Nat)
  /-- Modelled from the spec: cartridge ROM window as read through the
  controller (mbc.rs is not under src/). -/
  mbcRom : Nat → Nat
  /-- Modelled from the spec: cartridge RAM window as read through the
  controller (mbc.rs is not under src/). -/
  mbcRam : Nat → Nat
  /-- Modelled from the spec: writes delegated to the cartridge controller
  are logged, their bank-switching interpretation being out of scope. -/
  mbcRomWrites : List (Nat × Nat)
  /-- Modelled from the spec: writes delegated to the cartridge RAM. -/
  mbcRamWrites : List (Nat × Nat)
  hdma_status : DMAType
  hdma_src : Nat
  hdma_dst : Nat
  hdma_len : Nat
  wrambank : Nat
  gbmode : GbMode
  gbspeed : GbSpeed
  speed_switch_req : Bool
  undoc0 : Nat
  undoc1 : Nat
  undoc2 : Nat
  wram_mirror : Nat → Nat
  frame_counter : Nat

namespace MMU

/-- Write one byte into the video unit's store (self.gpu.wb in the source;
modelled from the spec as a pointwise map update). -/
def gpuWrite (s : MMU) (a v : Nat) : MMU :=
  { s with gpuMap := upd s.gpuMap a v }

/-- MMU::hdma_read in mmu.rs (only called with 0xFF51 ≤ a ≤ 0xFF55; the
panic arm for other addresses is unreachable from rb and modelled as 0). -/
def hdma_read (s : MMU) (a : Nat) : Nat :=
  if 0xFF51 ≤ a ∧ a ≤ 0xFF54 then
    (match a - 0xFF51 with
     | 0 => s.hdma0 | 1 => s.hdma1 | 2 => s.hdma2 | _ => s.hdma3) % 256
  else if a = 0xFF55 then
    (s.hdma_len ||| if s.hdma_status = DMAType.NoDMA then 0x80 else 0) % 256
  else 0

/-- MMU::hdma_write in mmu.rs. Returns none on the panic branch (illegal
transfer start address); the final panic arm for addresses outside
0xFF51–0xFF55 is unreachable from wb and also modelled as none. -/
def hdma_write (s : MMU) (a v : Nat) : Option MMU :=
  if a = 0xFF51 then some { s with hdma0 := v % 256 }
  else if a = 0xFF52 then some { s with hdma1 := v &&& 0xF0 }
  else if a = 0xFF53 then some { s with hdma2 := v &&& 0x1F }
  else if a = 0xFF54 then some { s with hdma3 := v &&& 0xF0 }
  else if a = 0xFF55 then
    if s.hdma_status = DMAType.HDMA then
      some (if v &&& 0x80 = 0 then { s with hdma_status := DMAType.NoDMA }
            else s)
    else
      let src := (s.hdma0 <<< 8) ||| s.hdma1
      let dst := (((s.hdma2 <<< 8) ||| s.hdma3) ||| 0x8000) % 0x10000
      if ¬ (src ≤ 0x7FF0 ∨ (0xA000 ≤ src ∧ src ≤ 0xDFF0)) then none
      else
        some { s with
          hdma_src := src
          hdma_dst := dst
          hdma_len := v &&& 0x7F
          hdma_status :=
            if v &&& 0x80 = 0x80 then DMAType.HDMA else DMAType.GDMA }
  else none

/-- MMU::rb in mmu.rs: the address-space dispatcher for byte reads. The
if-chain reproduces the source's match arms in order, guards included. -/
def rb (s : MMU) (a : Nat) : Nat :=
  if a ≤ 0x7FFF then rd8 s.mbcRom a
  else if a ≤ 0x9FFF then rd8 s.gpuMap a
  else if a ≤ 0xBFFF then rd8 s.mbcRam a
  else if (0xC000 ≤ a ∧ a ≤ 0xCFFF) ∨ (0xE000 ≤ a ∧ a ≤ 0xEFFF) then
    rd8 s.wram (a &&& 0x0FFF)
  else if (0xD000 ≤ a ∧ a ≤ 0xDFFF) ∨ (0xF000 ≤ a ∧ a ≤ 0xFDFF) then
    rd8 s.wram ((s.wrambank * 0x1000) ||| (a &&& 0x0FFF))
  else if 0xFE00 ≤ a ∧ a ≤ 0xFE9F then rd8 s.gpuMap a
  else if a = 0xFF00 then s.keypad.rb
  else if 0xFF01 ≤ a ∧ a ≤ 0xFF02 then rd8 s.serialMap a
  else if 0xFF04 ≤ a ∧ a ≤ 0xFF07 then rd8 s.timerMap a
  else if a = 0xFF0F then (s.intf ||| 0b11100000) % 256
  else if 0xFF10 ≤ a ∧ a ≤ 0xFF3F then
    (match s.sound with | none => 0xFF | some m => rd8 m a)
  else if (a = 0xFF4D ∨ a = 0xFF4F ∨ (0xFF51 ≤ a ∧ a ≤ 0xFF55) ∨ a = 0xFF6C
           ∨ a = 0xFF70) ∧ s.gbmode ≠ GbMode.Color then 0xFF
  else if ((0xFF72 ≤ a ∧ a ≤ 0xFF73) ∨ (0xFF75 ≤ a ∧ a ≤ 0xFF77))
          ∧ s.gbmode = GbMode.Classic then 0xFF
  else if a = 0xFF4D then
    0b01111110 ||| (if s.gbspeed = GbSpeed.Double then 0x80 else 0)
      ||| (if s.speed_switch_req then 1 else 0)
  else if 0xFF40 ≤ a ∧ a ≤ 0xFF4F then rd8 s.gpuMap a
  else if 0xFF51 ≤ a ∧ a ≤ 0xFF55 then s.hdma_read a
  else if 0xFF68 ≤ a ∧ a ≤ 0xFF6B then rd8 s.gpuMap a
  else if a = 0xFF70 then s.wrambank % 256
  else if 0xFF72 ≤ a ∧ a ≤ 0xFF73 then
    (if a = 0xFF72 then s.undoc0 else s.undoc1) % 256
  else if a = 0xFF75 then (s.undoc2 ||| 0b10001111) % 256
  else if 0xFF76 ≤ a ∧ a ≤ 0xFF77 then 0x00
  else if 0xFF80 ≤ a ∧ a ≤ 0xFFFE then rd8 s.zram (a &&& 0x007F)
  else if a = 0xFFFF then s.inte % 256
  else 0xFF

/-- MMU::wb in mmu.rs without the 0xFF46 OAM-DMA arm (that arm replays
through the dispatcher and is split off into wb below to make the recursion
structural; inside OAM DMA every replayed write lands in 0xFE00–0xFE9F, so
this restricted dispatcher is exact there). The arm order and guards follow
the source match. -/
def wbNoDma (s : MMU) (a value : Nat) : Option MMU :=
  let v := value % 256
  if a ≤ 0x7FFF then some { s with mbcRomWrites := (a, v) :: s.mbcRomWrites }
  else if a ≤ 0x9FFF then some (s.gpuWrite a v)
  else if a ≤ 0xBFFF then
    some { s with mbcRamWrites := (a, v) :: s.mbcRamWrites }
  else if (0xC000 ≤ a ∧ a ≤ 0xCFFF) ∨ (0xE000 ≤ a ∧ a ≤ 0xEFFF) then
    some { s with wram := upd s.wram (a &&& 0x0FFF) v }
  else if (0xD000 ≤ a ∧ a ≤ 0xDFFF) ∨ (0xF000 ≤ a ∧ a ≤ 0xFDFF) then
    some { s with wram := upd s.wram ((s.wrambank * 0x1000) ||| (a &&& 0x0FFF)) v }
  else if 0xFE00 ≤ a ∧ a ≤ 0xFE9F then some (s.gpuWrite a v)
  else if a = 0xFF00 then some { s with keypad := s.keypad.wb v }
  else if 0xFF01 ≤ a ∧ a ≤ 0xFF02 then
    some { s with serialMap := upd s.serialMap a v }
  else if 0xFF04 ≤ a ∧ a ≤ 0xFF07 then
    some { s with timerMap := upd s.timerMap a v }
  else if 0xFF10 ≤ a ∧ a ≤ 0xFF3F then
    some (match s.sound with
          | none => s
          | some m => { s with sound := some (upd m a v) })
  else if a = 0xFF46 then some s
  else if (a = 0xFF4D ∨ a = 0xFF4F ∨ (0xFF51 ≤ a ∧ a ≤ 0xFF55) ∨ a = 0xFF6C
           ∨ a = 0xFF70 ∨ (0xFF76 ≤ a ∧ a ≤ 0xFF77))
          ∧ s.gbmode ≠ GbMode.Color then some s
  else if ((0xFF72 ≤ a ∧ a ≤ 0xFF73) ∨ (0xFF75 ≤ a ∧ a ≤ 0xFF77))
          ∧ s.gbmode = GbMode.Classic then some s
  else if a = 0xFF4D then
    some (if v &&& 0x1 = 0x1 then { s with speed_switch_req := true } else s)
  else if 0xFF40 ≤ a ∧ a ≤ 0xFF4F then some (s.gpuWrite a v)
  else if 0xFF51 ≤ a ∧ a ≤ 0xFF55 then s.hdma_write a v
  else if 0xFF68 ≤ a ∧ a ≤ 0xFF6B then some (s.gpuWrite a v)
  else if a = 0xFF0F then some { s with intf := v }
  else if a = 0xFF70 then
    some { s with wrambank := if v &&& 0x7 = 0 then 1 else v &&& 0x7 }
  else if 0xFF72 ≤ a ∧ a ≤ 0xFF73 then
    some (if a = 0xFF72 then { s with undoc0 := v } else { s with undoc1 := v })
  else if a = 0xFF75 then some { s with undoc2 := v }
  else if 0xFF80 ≤ a ∧ a ≤ 0xFFFE then
    some { s with zram := upd s.zram (a &&& 0x007F) v }
  else if a = 0xFFFF then some { s with inte := v }
  else some s

/-- MMU::oamdma in mmu.rs: 160 synchronous bus reads from (value << 8) + i
replayed as bus writes to 0xFE00 + i. Every replayed write targets
0xFE00–0xFE9F, so dispatching it through wbNoDma is exact. -/
def oamdma (s : MMU) (value : Nat) : Option MMU :=
  let base := ((value % 256) <<< 8) % 0x10000
  (List.range 0xA0).foldl
    (fun acc i =>
      acc.bind fun st => st.wbNoDma (0xFE00 + i) (st.rb ((base + i) % 0x10000)))
    (some s)

/-- MMU::wb in mmu.rs: the byte-write dispatcher. The source's 0xFF46 arm
(no earlier arm matches 0xFF46) triggers the synchronous OAM copy; all
other addresses dispatch exactly as wbNoDma. -/
def wb (s : MMU) (a value : Nat) : Option MMU :=
  if a = 0xFF46 then s.oamdma value else s.wbNoDma a value

/-- Total wrapper around wb used to state round-trip properties at
addresses where the source write cannot panic. -/
def wbD (s : MMU) (a value : Nat) : MMU :=
  (s.wb a value).getD s

/-! ## VRAM DMA engine (mmu.rs) -/

/-- MMU::perform_vramdma_row in mmu.rs: read 16 sequential source bytes
through the bus and write them directly into video memory, advance the
source and destination pointers by 16 (u16 wraparound), and decrement the
7-bit length counter with the 0 → 0x7F sentinel wrap. -/
def perform_vramdma_row (s : MMU) : MMU :=
  let mmu_src := s.hdma_src
  let s1 := (List.range 0x10).foldl
    (fun st j =>
      st.gpuWrite ((s.hdma_dst + j) % 0x10000) (st.rb ((mmu_src + j) % 0x10000)))
    s
  let s2 : MMU := { s1 with
    hdma_src := (s1.hdma_src + 0x10) % 0x10000
    hdma_dst := (s1.hdma_dst + 0x10) % 0x10000 }
  if s2.hdma_len = 0 then { s2 with hdma_len := 0x7F }
  else { s2 with hdma_len := s2.hdma_len - 1 }

/-- n-fold application of perform_vramdma_row: the loop body of
MMU::perform_gdma. -/
def iterRow : Nat → MMU → MMU
  | 0, s => s
  | n + 1, s => iterRow n (perform_vramdma_row s)

/-- MMU::perform_gdma in mmu.rs: copy hdma_len + 1 rows at once, clear the
transfer, and report (hdma_len + 1) * 8 consumed ticks. -/
def perform_gdma (s : MMU) : MMU × Nat :=
  let len := s.hdma_len + 1
  ({ iterRow len s with hdma_status := DMAType.NoDMA }, len * 8)

/-- MMU::perform_hdma in mmu.rs: copy one row per call while the video unit
accepts one, ending the transfer when the length counter wraps to the 0x7F
sentinel; each copied row reports 8 ticks. -/
def perform_hdma (s : MMU) : MMU × Nat :=
  if s.gpuMayHdma = false then (s, 0)
  else
    let s1 := perform_vramdma_row s
    (if s1.hdma_len = 0x7F then { s1 with hdma_status := DMAType.NoDMA } else s1, 8)

/-- MMU::perform_vramdma in mmu.rs: dispatch on the active transfer mode. -/
def perform_vramdma (s : MMU) : MMU × Nat :=
  match s.hdma_status with
  | DMAType.NoDMA => (s, 0)
  | DMAType.GDMA => s.perform_gdma
  | DMAType.HDMA => s.perform_hdma

/-! ## Mirror snapshot (MMU::write_mirror in mmu.rs) -/

/-- The byte at mirror offset i after a derivation over working memory w
with frame counter fc, one case per assignment of MMU::write_mirror:
frame counter LE at 0x000, map/player bytes, 66 contiguous party bytes,
battle bytes, the two big-endian HP words re-emitted little-endian, the
money field (bcd0 * 10000 + bcd1 * 100 + bcd2 from wram 0xD573–0xD575,
emitted as u32 LE), badges, reserved zeros, and the two debug bytes. -/
def mirrorBytes (w : Nat → Nat) (fc : Nat) (i : Nat) : Nat :=
  if i < 0x004 then (fc >>> (8 * i)) % 256
  else if i = 0x004 then rd8 w 0xDA00
  else if i = 0x005 then rd8 w 0xDA01
  else if i = 0x006 then rd8 w 0xD20D
  else if i = 0x007 then rd8 w 0xD20E
  else if i = 0x008 then rd8 w 0xDA22
  else if i < 0x049 then rd8 w (0xDA2A + (i - 0x009))
  else if i = 0x049 then rd8 w 0xD116
  else if i = 0x04A then rd8 w 0xD0ED
  else if i = 0x04B then rd8 w 0xD0FC
  else if i = 0x04C then rd8 w 0xD100
  else if i = 0x04D then rd8 w 0xD0FF
  else if i = 0x04E then rd8 w 0xD102
  else if i = 0x04F then rd8 w 0xD101
  else if i < 0x054 then
    ((rd8 w 0xD573 * 10000 + rd8 w 0xD574 * 100 + rd8 w 0xD575)
      >>> (8 * (i - 0x050))) % 256
  else if i = 0x054 then rd8 w 0xD57C
  else if i < 0x058 then 0
  else if i = 0x058 then rd8 w 0xFFD3
  else if i = 0x059 then rd8 w 0xFFD4
  else 0

/-- MMU::write_mirror in mmu.rs: wrap-increment the 32-bit frame counter,
then overwrite mirror offsets 0x000–0x059 from working memory (offsets
0x05A–0x067 are left as they were, as in the source). -/
def write_mirror (s : MMU) : MMU :=
  let fc := (s.frame_counter + 1) % 4294967296
  { s with
    frame_counter := fc
    wram_mirror := fun i =>
      if i < 0x05A then mirrorBytes s.wram fc i else s.wram_mirror i }

/-- Little-endian 32-bit value stored at mirror offsets 0x000–0x003. -/
def mirrorFrameWord (m : Nat → Nat) : Nat :=
  m 0 + 256 * m 1 + 65536 * m 2 + 16777216 * m 3

/-- Little-endian 32-bit value stored at mirror offsets 0x050–0x053
(the money field). -/
def mirrorMoneyWord (m : Nat → Nat) : Nat :=
  m 0x050 + 256 * m 0x051 + 65536 * m 0x052 + 16777216 * m 0x053

end MMU

/-! ## Session construction (device.rs and bindings/lgirl_py/src/env_api.rs) -/

/-- Which Device constructor the Python binding invokes:
Device::new (classic session) or Device::new_cgb (color session). -/
inductive DeviceCtor where
  | New | NewCgb
deriving DecidableEq

/-- The constructor dispatch of Env::new in env_api.rs: classic_mode
defaults to false; if classic then Device::new_cgb else Device::new. -/
def envNewCtor (classic_mode : Option Bool) : DeviceCtor :=
  if classic_mode.getD false then DeviceCtor.NewCgb else DeviceCtor.New

/-- The console mode MMU::new starts the session in (mmu.rs, field init
gbmode: GbMode::Classic). -/
def mmuNewGbmode : GbMode := GbMode.Classic

/-- The console mode MMU::new_cgb leaves the session in after
MMU::determine_mode, as a function of cartridge header byte 0x0143. -/
def mmuNewCgbGbmode (rom143 : Nat) : GbMode :=
  if rom143 &&& 0x80 = 0x80 then GbMode.Color else GbMode.ColorAsClassic

/-- Mode of the session built by a given Device constructor (Device::new
goes through CPU::new to MMU::new; Device::new_cgb through CPU::new_cgb to
MMU::new_cgb), as a function of cartridge header byte 0x0143. -/
def deviceCtorGbmode : DeviceCtor → Nat → GbMode
  | DeviceCtor.New, _ => mmuNewGbmode
  | DeviceCtor.NewCgb, r => mmuNewCgbGbmode r

/-! ## Concrete states for witnesses and counterexamples -/

/-- The all-zero byte map. -/
def zeroMap : Nat → Nat := fun _ => 0

/-- A concrete color-mode bus state used to evaluate the model. -/
def mColor : MMU :=
  { wram := zeroMap, zram := zeroMap
    hdma0 := 0, hdma1 := 0, hdma2 := 0, hdma3 := 0
    inte := 0, intf := 0, keypad := Keypad.new
    gpuMap := zeroMap, gpuMayHdma := false
    serialMap := zeroMap, timerMap := zeroMap, sound := none
    mbcRom := zeroMap, mbcRam := zeroMap
    mbcRomWrites := [], mbcRamWrites := []
    hdma_status := DMAType.NoDMA, hdma_src := 0, hdma_dst := 0
    hdma_len := 0xFF, wrambank := 1
    gbmode := GbMode.Color, gbspeed := GbSpeed.Single
    speed_switch_req := false
    undoc0 := 0, undoc1 := 0, undoc2 := 0
    wram_mirror := zeroMap, frame_counter := 0 }

/-- The same concrete bus state in classic mode. -/
def mClassic : MMU := { mColor with gbmode := GbMode.Classic }

/-- A concrete state with a blanking-row (HDMA) transfer in flight. -/
def mHdmaActive : MMU :=
  { mColor with
    hdma_status := DMAType.HDMA, hdma_src := 0xA000
    hdma_dst := 0x8800, hdma_len := 5 }

/-- A concrete state whose working memory holds the BCD money bytes
[0x01, 0x23, 0x45] at 0xD573–0xD575. -/
def mBcd : MMU :=
  { mColor with wram := fun a =>
      if a = 0xD573 then 0x01
      else if a = 0xD574 then 0x23
      else if a = 0xD575 then 0x45
      else 0 }

/-! ## Helper lemmas -/

theorem and_fff (a : Nat) : a &&& 0xFFF = a % 0x1000 :=
  Nat.and_pow_two_sub_one_eq_mod a 12

theorem nib_of_or (x n : Nat) (hn : n ≤ 0xF) :
    ((x &&& 0xF0) ||| n) &&& 0xF = n := by
  have h1 : ((x &&& 0xF0) ||| n) &&& 0xF = ((x &&& 0xF0) &&& 0xF) ||| (n &&& 0xF) :=
    Nat.and_distrib_right _ _ _
  have h2 : (x &&& 0xF0) &&& 0xF = 0 := by
    rw [Nat.and_assoc, (by decide : (0xF0 : Nat) &&& 0xF = 0), Nat.and_zero]
  have h3 : n &&& 0xF = n := by
    have h := Nat.and_pow_two_sub_one_eq_mod n 4
    norm_num at h
    omega
  rw [h1, h2, h3, Nat.zero_or]

theorem and_mask_sub (x a b : Nat) (hab : a &&& b = b) :
    (x &&& a) &&& b = x &&& b := by
  rw [Nat.and_assoc, hab]

theorem mod256_and_f (y : Nat) : (y % 256) &&& 0xF = y &&& 0xF := by
  rw [← Nat.and_pow_two_sub_one_eq_mod y 8]
  norm_num
  exact and_mask_sub y 0xFF 0xF (by decide)

/-- The recomputed visible nibble never exceeds 0xF. -/
theorem newValues_le (k : Keypad) : Keypad.newValues k ≤ 0xF := by
  unfold Keypad.newValues
  dsimp only
  split
  · split
    · exact le_trans (Nat.and_le_left) (Nat.and_le_left)
    · exact Nat.and_le_left
  · split
    · exact Nat.and_le_left
    · exact le_rfl

/-- After Keypad::update, the visible low nibble of the readable byte is
exactly the recomputed row conjunction. -/
theorem update_nibble (k : Keypad) :
    (Keypad.update k).rb &&& 0xF = Keypad.newValues k := by
  show ((k.data &&& 0xF0 ||| Keypad.newValues k) % 256) &&& 0xF = _
  rw [mod256_and_f]
  exact nib_of_or _ _ (newValues_le k)

/-- Keypad::update raises interrupt bit 4 exactly on a transition of the
visible low nibble from 0xF to non-0xF, stated through the readable
register byte. -/
theorem update_interrupt (k : Keypad) :
    (Keypad.update k).interrupt =
      if k.rb &&& 0xF = 0xF ∧ (Keypad.update k).rb &&& 0xF ≠ 0xF
      then k.interrupt ||| 0x10 else k.interrupt := by
  have h1 : k.rb &&& 0xF = k.data &&& 0xF := mod256_and_f _
  have h2 := update_nibble k
  show (if k.data &&& 0xF = 0xF ∧ Keypad.newValues k ≠ 0xF
        then k.interrupt ||| 0x10 else k.interrupt) = _
  exact (if_congr (by rw [h1, h2]) rfl rfl).symm

/-- Reads of the low work-RAM window and its echo resolve to the fixed low
4 KiB of working memory. -/
theorem rb_wram_low (s : MMU) (a : Nat)
    (h : (0xC000 ≤ a ∧ a ≤ 0xCFFF) ∨ (0xE000 ≤ a ∧ a ≤ 0xEFFF)) :
    s.rb a = rd8 s.wram (a % 0x1000) := by
  unfold MMU.rb
  rw [if_neg (by omega), if_neg (by omega), if_neg (by omega),
    if_pos (by omega), and_fff]

/-- Reads of the banked work-RAM window and its echo resolve to the
selected bank of working memory. -/
theorem rb_wram_bank (s : MMU) (a : Nat)
    (h : (0xD000 ≤ a ∧ a ≤ 0xDFFF) ∨ (0xF000 ≤ a ∧ a ≤ 0xFDFF)) :
    s.rb a = rd8 s.wram ((s.wrambank * 0x1000) ||| (a % 0x1000)) := by
  unfold MMU.rb
  rw [if_neg (by omega), if_neg (by omega), if_neg (by omega),
    if_neg (by omega), if_pos (by omega), and_fff]

/-- Writes to the banked work-RAM window and its echo store into the
selected bank of working memory. -/
theorem wb_wram_bank (s : MMU) (a x : Nat)
    (h : (0xD000 ≤ a ∧ a ≤ 0xDFFF) ∨ (0xF000 ≤ a ∧ a ≤ 0xFDFF)) :
    s.wb a x = some { s with
      wram := upd s.wram ((s.wrambank * 0x1000) ||| (a % 0x1000)) (x % 256) } := by
  unfold MMU.wb MMU.wbNoDma
  rw [if_neg (by omega)]
  dsimp only
  rw [if_neg (by omega), if_neg (by omega), if_neg (by omega), if_neg (by omega),
    if_pos (by omega), and_fff]

/-! ## C3: echo equivalence -/

/-- C3: for every bus state, a read of a low work-RAM address
0xC000–0xCFFF equals the read of its echo at a + 0x2000, and a read of a
banked-window address 0xD000–0xDDFF (the part of the banked window whose
echo lies inside the stated echo range 0xF000–0xFDFF) equals the read of
its echo at a + 0x2000. -/
theorem echo_equivalence (s : MMU) (a : Nat) :
    (0xC000 ≤ a ∧ a ≤ 0xCFFF → s.rb a = s.rb (a + 0x2000)) ∧
    (0xD000 ≤ a ∧ a ≤ 0xDDFF → s.rb a = s.rb (a + 0x2000)) := by
  constructor
  · intro h
    rw [rb_wram_low s a (Or.inl h), rb_wram_low s (a + 0x2000) (by omega)]
    congr 1
    omega
  · intro h
    rw [rb_wram_bank s a (by omega), rb_wram_bank s (a + 0x2000) (by omega)]
    congr 2
    omega

/-- Witness for C3 at concrete addresses 0xC123 and 0xD123. -/
theorem echo_equivalence_w :
    mColor.rb 0xC123 = mColor.rb 0xE123 ∧ mColor.rb 0xD123 = mColor.rb 0xF123 :=
  ⟨(echo_equivalence mColor 0xC123).1 (by decide),
   (echo_equivalence mColor 0xD123).2 (by decide)⟩

/-! ## C5: bank-select writes -/

/-- Effect of a bank-select write in color mode, read off the 0xFF70 arm
of MMU::wb. -/
theorem wb_ff70_color (s : MMU) (v : Nat) (hm : s.gbmode = GbMode.Color)
    (hv : v < 256) :
    s.wb 0xFF70 v =
      some { s with wrambank := if v &&& 0x7 = 0 then 1 else v &&& 0x7 } := by
  simp [MMU.wb, MMU.wbNoDma, hm, Nat.mod_eq_of_lt hv]

/-- C5 counterexample: the claim quantifies over both console modes, but in
classic mode a bank-select write with value 2 is a no-op (the mode guard in
MMU::wb swallows it), leaving the effective bank at 1 instead of 2. -/
theorem bank_select_counterexample :
    mClassic.wb 0xFF70 2 = some mClassic ∧
    (mClassic.wbD 0xFF70 2).wrambank = 1 ∧
    (mClassic.wbD 0xFF70 2).wrambank ≠ 2 :=
  ⟨rfl, rfl, by decide⟩

/-- C5 amended: a bank-select write with value v takes effect only in color
mode, where the bank becomes 1 if v &&& 7 = 0 and v &&& 7 otherwise —
hence always in [1,7] — and every subsequent read or write through the
banked window (0xD000–0xDFFF and its echo 0xF000–0xFDFF) resolves to that
bank of working memory; in classic mode the write is a no-op. -/
theorem bank_select_amended (s : MMU) (v : Nat) (hv : v < 256) :
    (s.gbmode = GbMode.Color →
      (s.wbD 0xFF70 v).wrambank = (if v &&& 0x7 = 0 then 1 else v &&& 0x7) ∧
      1 ≤ (s.wbD 0xFF70 v).wrambank ∧ (s.wbD 0xFF70 v).wrambank ≤ 7 ∧
      (∀ a : Nat, (0xD000 ≤ a ∧ a ≤ 0xDFFF) ∨ (0xF000 ≤ a ∧ a ≤ 0xFDFF) →
        (s.wbD 0xFF70 v).rb a =
          rd8 s.wram
            (((if v &&& 0x7 = 0 then 1 else v &&& 0x7) * 0x1000) ||| (a % 0x1000))) ∧
      (∀ a x : Nat, (0xD000 ≤ a ∧ a ≤ 0xDFFF) ∨ (0xF000 ≤ a ∧ a ≤ 0xFDFF) →
        (s.wbD 0xFF70 v).wb a x = some { (s.wbD 0xFF70 v) with
          wram := upd s.wram
            (((if v &&& 0x7 = 0 then 1 else v &&& 0x7) * 0x1000) ||| (a % 0x1000))
            (x % 256) })) ∧
    (s.gbmode = GbMode.Classic → s.wb 0xFF70 v = some s) := by
  constructor
  · intro hm
    have hwb := wb_ff70_color s v hm hv
    have hD : s.wbD 0xFF70 v =
        { s with wrambank := if v &&& 0x7 = 0 then 1 else v &&& 0x7 } := by
      rw [MMU.wbD, hwb]; rfl
    have hle : v &&& 0x7 ≤ 7 := Nat.and_le_right
    refine ⟨by rw [hD], ?_, ?_, ?_, ?_⟩
    · rw [hD]; dsimp only; split
      · omega
      · next hne => omega
    · rw [hD]; dsimp only; split <;> omega
    · intro a ha
      rw [rb_wram_bank _ _ ha, hD]
    · intro a x ha
      rw [wb_wram_bank _ _ _ ha, hD]
  · intro hm
    simp [MMU.wb, MMU.wbNoDma, hm]

/-- Witness for C5 at v = 5 in both modes, with a concrete echo-window read
at 0xF234 and a concrete banked write at 0xD234. -/
theorem bank_select_amended_w :
    (mColor.wbD 0xFF70 5).wrambank = (if 5 &&& 0x7 = 0 then 1 else 5 &&& 0x7) ∧
    (mColor.wbD 0xFF70 5).rb 0xF234 =
      rd8 mColor.wram
        (((if 5 &&& 0x7 = 0 then 1 else 5 &&& 0x7) * 0x1000) ||| (0xF234 % 0x1000)) ∧
    (mColor.wbD 0xFF70 5).wb 0xD234 0xAB = some { (mColor.wbD 0xFF70 5) with
      wram := upd mColor.wram
        (((if 5 &&& 0x7 = 0 then 1 else 5 &&& 0x7) * 0x1000) ||| (0xD234 % 0x1000))
        (0xAB % 256) } ∧
    mClassic.wb 0xFF70 5 = some mClassic :=
  ⟨((bank_select_amended mColor 5 (by decide)).1 rfl).1,
   ((bank_select_amended mColor 5 (by decide)).1 rfl).2.2.2.1 0xF234 (by decide),
   ((bank_select_amended mColor 5 (by decide)).1 rfl).2.2.2.2 0xD234 0xAB (by decide),
   (bank_select_amended mClassic 5 (by decide)).2 rfl⟩

/-! ## C2: mode gating of color-only registers -/

/-- C4 counterexample: on a fresh keypad (data = 0xFF, so neither row is
selected and the visible nibble reads 0xF, i.e. nothing pressed), pressing
a key raises no interrupt — the recomputed nibble stays 0xF because the
pressed row is not selected, so the claimed "pressing any key sets the
interrupt bit" fails. -/
theorem keypad_edge_counterexample :
    Keypad.new.rb &&& 0xF = 0xF ∧
    (Keypad.new.keydown KeypadKey.Right).interrupt = 0 ∧
    (Keypad.new.keydown KeypadKey.Right).interrupt &&& 0x10 = 0 := by decide

/-- C4 amended: every keypad entry point (keydown, keyup, set_mask) raises
interrupt bit 4 exactly when the visible low nibble transitions from 0xF
(nothing pressed among the selected rows) to non-0xF; in particular a press
that leaves the nibble at 0xF raises nothing, and a second press while the
nibble is already non-0xF does not re-raise. -/
theorem keypad_edge_amended (k : Keypad) (key : KeypadKey) (m : Nat) :
    ((k.keydown key).interrupt =
      (if k.rb &&& 0xF = 0xF ∧ (k.keydown key).rb &&& 0xF ≠ 0xF
       then k.interrupt ||| 0x10 else k.interrupt)) ∧
    ((k.keyup key).interrupt =
      (if k.rb &&& 0xF = 0xF ∧ (k.keyup key).rb &&& 0xF ≠ 0xF
       then k.interrupt ||| 0x10 else k.interrupt)) ∧
    ((k.set_mask m).interrupt =
      (if k.rb &&& 0xF = 0xF ∧ (k.set_mask m).rb &&& 0xF ≠ 0xF
       then k.interrupt ||| 0x10 else k.interrupt)) := by
  refine ⟨?_, ?_, ?_⟩
  · cases key <;> exact update_interrupt _
  · cases key <;> exact update_interrupt _
  · exact update_interrupt _

/-! ## C7: mutual exclusion and restart behavior of DMA control writes -/

/-- C7 counterexample: with a blanking-row transfer active, a control write
with high bit set (an attempt to start a new blanking-row transfer) leaves
the state completely unchanged — the active transfer is NOT cancelled, it
keeps running with its old source, destination and length. -/
theorem hdma_restart_counterexample :
    mHdmaActive.hdma_status = DMAType.HDMA ∧
    mHdmaActive.hdma_write 0xFF55 0x85 = some mHdmaActive :=
  ⟨rfl, rfl⟩

/-- C7 amended: while a blanking-row transfer is active, a control-register
write never panics and never starts a second transfer: with high bit 0 it
cancels the active transfer (only the status changes, no row is copied);
with high bit 1 it is ignored and the active transfer continues unchanged.
One-shot and blanking-row transfers remain mutually exclusive (the status
is a single mode). -/
theorem hdma_write_amended (s : MMU) (v : Nat)
    (h : s.hdma_status = DMAType.HDMA) :
    s.hdma_write 0xFF55 v =
      some (if v &&& 0x80 = 0 then { s with hdma_status := DMAType.NoDMA }
            else s) ∧
    ∀ t : MMU, ¬ (t.hdma_status = DMAType.GDMA ∧ t.hdma_status = DMAType.HDMA) := by
  constructor
  · simp [MMU.hdma_write, h]
  · rintro t ⟨h1, h2⟩
    rw [h1] at h2
    exact absurd h2 (by decide)

/-- Witness for C7: cancelling write (high bit 0) on a concrete active
transfer. -/
theorem hdma_write_amended_w :
    mHdmaActive.hdma_write 0xFF55 0x05 =
      some (if 0x05 &&& 0x80 = 0
            then { mHdmaActive with hdma_status := DMAType.NoDMA }
            else mHdmaActive) :=
  (hdma_write_amended mHdmaActive 0x05 rfl).1

/-! ## C8: illegal VRAM DMA source addresses -/

/-- For every byte pair writable into the hdma source registers (hdma1 is
stored masked to its high nibble by MMU::hdma_write, so the low nibble of
the assembled source is always 0), the transfer-start legality test of
MMU::hdma_write rejects exactly the sources in 0x8000–0x9FFF and
0xE000–0xFFF0. -/
theorem src_range_char : ∀ a, a < 256 → ∀ c, c < 16 →
    (¬ (((a <<< 8) ||| (16 * c)) ≤ 0x7FF0 ∨
        (0xA000 ≤ ((a <<< 8) ||| (16 * c)) ∧ ((a <<< 8) ||| (16 * c)) ≤ 0xDFF0)) ↔
      ((0x8000 ≤ ((a <<< 8) ||| (16 * c)) ∧ ((a <<< 8) ||| (16 * c)) ≤ 0x9FFF) ∨
       (0xE000 ≤ ((a <<< 8) ||| (16 * c)) ∧ ((a <<< 8) ||| (16 * c)) ≤ 0xFFF0))) := by
  decide

/-- A write into the source-low register 0xFF52 always stores a value whose
low nibble is 0 (the source masks with 0xF0), establishing the
achievability hypothesis of the C8 theorem. -/
theorem hdma1_low_nibble_zero (s : MMU) (v : Nat) (s1 : MMU)
    (h : s.hdma_write 0xFF52 v = some s1) : s1.hdma1 % 16 = 0 := by
  unfold MMU.hdma_write at h
  rw [if_neg (by decide), if_pos rfl] at h
  cases h
  show (v &&& 0xF0) % 16 = 0
  have hb := Nat.and_pow_two_sub_one_eq_mod (v &&& 0xF0) 4
  norm_num at hb
  have hz : (v &&& 0xF0) &&& 0xF = 0 := by
    rw [Nat.and_assoc, (by decide : (0xF0 : Nat) &&& 0xF = 0), Nat.and_zero]
  omega

/-- C8: starting a VRAM DMA transfer (control write while no blanking-row
transfer is active) hits the fatal panic branch exactly when the assembled
source address lies in 0x8000–0x9FFF or 0xE000–0xFFF0; every other
achievable source is accepted. -/
theorem hdma_illegal_source (s : MMU) (v : Nat)
    (hst : s.hdma_status ≠ DMAType.HDMA)
    (h0 : s.hdma0 < 256) (h1 : s.hdma1 < 256) (h1m : s.hdma1 % 16 = 0) :
    (s.hdma_write 0xFF55 v = none ↔
      ((0x8000 ≤ (s.hdma0 <<< 8) ||| s.hdma1 ∧
        (s.hdma0 <<< 8) ||| s.hdma1 ≤ 0x9FFF) ∨
       (0xE000 ≤ (s.hdma0 <<< 8) ||| s.hdma1 ∧
        (s.hdma0 <<< 8) ||| s.hdma1 ≤ 0xFFF0))) := by
  have hc : s.hdma1 = 16 * (s.hdma1 / 16) := by omega
  have hlt : s.hdma1 / 16 < 16 := by omega
  have key := src_range_char s.hdma0 h0 (s.hdma1 / 16) hlt
  rw [← hc] at key
  by_cases hleg : ((s.hdma0 <<< 8) ||| s.hdma1) ≤ 0x7FF0 ∨
      (0xA000 ≤ (s.hdma0 <<< 8) ||| s.hdma1 ∧ (s.hdma0 <<< 8) ||| s.hdma1 ≤ 0xDFF0)
  · have hw : s.hdma_write 0xFF55 v ≠ none := by
      simp [MMU.hdma_write, hst, hleg]
    constructor
    · intro h
      exact absurd h hw
    · intro hr
      exact absurd hleg (key.mpr hr)
  · have hw : s.hdma_write 0xFF55 v = none := by
      simp [MMU.hdma_write, hst, hleg]
    simp only [hw, true_iff]
    exact key.mp hleg

/-- A concrete state whose hdma source registers assemble to the illegal
source 0x8000. -/
def mIllegalSrc : MMU := { mColor with hdma0 := 0x80 }

/-- Witness for C8: a transfer start from source 0x8000 panics, and the
characterization instantiates at that state. -/
theorem hdma_illegal_source_w :
    mIllegalSrc.hdma_write 0xFF55 0 = none ↔
      ((0x8000 ≤ (mIllegalSrc.hdma0 <<< 8) ||| mIllegalSrc.hdma1 ∧
        (mIllegalSrc.hdma0 <<< 8) ||| mIllegalSrc.hdma1 ≤ 0x9FFF) ∨
       (0xE000 ≤ (mIllegalSrc.hdma0 <<< 8) ||| mIllegalSrc.hdma1 ∧
        (mIllegalSrc.hdma0 <<< 8) ||| mIllegalSrc.hdma1 ≤ 0xFFF0)) :=
  hdma_illegal_source mIllegalSrc 0 (by decide) (by decide) (by decide) (by decide)

/-! ## C6: one-shot (general-purpose) VRAM DMA -/

/-- The 16 bus reads and video-memory writes of one DMA row only touch the
video store: all DMA bookkeeping fields pass through the fold unchanged. -/
theorem foldl_row_skeleton (l : List Nat) (dst src : Nat) :
    ∀ s : MMU,
      ((l.foldl (fun (st : MMU) (j : Nat) =>
          st.gpuWrite ((dst + j) % 0x10000) (st.rb ((src + j) % 0x10000))) s).hdma_src
        = s.hdma_src ∧
       (l.foldl (fun (st : MMU) (j : Nat) =>
          st.gpuWrite ((dst + j) % 0x10000) (st.rb ((src + j) % 0x10000))) s).hdma_dst
        = s.hdma_dst ∧
       (l.foldl (fun (st : MMU) (j : Nat) =>
          st.gpuWrite ((dst + j) % 0x10000) (st.rb ((src + j) % 0x10000))) s).hdma_len
        = s.hdma_len ∧
       (l.foldl (fun (st : MMU) (j : Nat) =>
          st.gpuWrite ((dst + j) % 0x10000) (st.rb ((src + j) % 0x10000))) s).hdma_status
        = s.hdma_status ∧
       (l.foldl (fun (st : MMU) (j : Nat) =>
          st.gpuWrite ((dst + j) % 0x10000) (st.rb ((src + j) % 0x10000))) s).gbmode
        = s.gbmode) := by
  induction l with
  | nil => intro s; exact ⟨rfl, rfl, rfl, rfl, rfl⟩
  | cons x xs ih =>
    intro s
    simpa [MMU.gpuWrite] using ih _

/-- One DMA row advances source and destination by 16 (u16 wraparound),
preserves the transfer mode and console mode, and decrements the length
counter with the 0 → 0x7F sentinel wrap. -/
theorem row_proj (s : MMU) :
    (MMU.perform_vramdma_row s).hdma_src = (s.hdma_src + 0x10) % 0x10000 ∧
    (MMU.perform_vramdma_row s).hdma_dst = (s.hdma_dst + 0x10) % 0x10000 ∧
    (MMU.perform_vramdma_row s).hdma_status = s.hdma_status ∧
    (MMU.perform_vramdma_row s).gbmode = s.gbmode ∧
    (MMU.perform_vramdma_row s).hdma_len =
      (if s.hdma_len = 0 then 0x7F else s.hdma_len - 1) := by
  unfold MMU.perform_vramdma_row
  have hsk := foldl_row_skeleton (List.range 0x10) s.hdma_dst s.hdma_src s
  dsimp only
  split
  · next hz =>
    rw [hsk.2.2.1] at hz
    simp [hsk.1, hsk.2.1, hsk.2.2.2.1, hsk.2.2.2.2, hz]
  · next hz =>
    rw [hsk.2.2.1] at hz
    simp [hsk.1, hsk.2.1, hsk.2.2.1, hsk.2.2.2.1, hsk.2.2.2.2, hz]

/-- Iterated DMA rows preserve the transfer and console modes and advance
the source pointer by 16 per row. -/
theorem iterRow_proj : ∀ (n : Nat) (s : MMU),
    (MMU.iterRow n s).hdma_status = s.hdma_status ∧
    (MMU.iterRow n s).gbmode = s.gbmode ∧
    (s.hdma_src < 0x10000 →
      (MMU.iterRow n s).hdma_src = (s.hdma_src + 0x10 * n) % 0x10000) := by
  intro n
  induction n with
  | zero =>
    intro s
    refine ⟨rfl, rfl, fun h => ?_⟩
    show s.hdma_src = _
    omega
  | succ m ih =>
    intro s
    have hr := row_proj s
    have hstep : MMU.iterRow (m + 1) s = MMU.iterRow m (MMU.perform_vramdma_row s) := rfl
    refine ⟨?_, ?_, fun h => ?_⟩
    · rw [hstep, (ih _).1, hr.2.2.1]
    · rw [hstep, (ih _).2.1, hr.2.2.2.1]
    · rw [hstep, (ih _).2.2 (by rw [hr.1]; omega), hr.1]
      omega

/-- Running n rows from a length counter of at least n - 1 leaves the
counter at the 0x7F sentinel exactly when all rows were consumed. -/
theorem iterRow_len : ∀ (n : Nat) (s : MMU), n ≤ s.hdma_len + 1 →
    (MMU.iterRow n s).hdma_len =
      if n ≤ s.hdma_len then s.hdma_len - n else 0x7F := by
  intro n
  induction n with
  | zero =>
    intro s h
    show s.hdma_len = _
    simp
  | succ m ih =>
    intro s h
    have hr := (row_proj s).2.2.2.2
    show (MMU.iterRow m (MMU.perform_vramdma_row s)).hdma_len = _
    by_cases hz : s.hdma_len = 0
    · have hm : m = 0 := by omega
      subst hm
      show (MMU.perform_vramdma_row s).hdma_len = _
      rw [hr]
      simp [hz]
    · rw [ih (MMU.perform_vramdma_row s) (by rw [hr]; split <;> omega), hr]
      simp only [hz, if_false]
      split <;> split <;> omega

/-- C6: a control write with length byte v and high bit 0 (in color mode,
with no blanking transfer active and a legal source) starts a one-shot
transfer whose next scheduler resolution copies exactly (v &&& 0x7F) + 1
sixteen-byte rows (the source pointer advances by 16 per row), consumes
exactly ((v &&& 0x7F) + 1) * 8 ticks, ends with no transfer active, and
makes a control-register read return the remaining length (the 0x7F
sentinel) with bit 7 set, i.e. 0xFF. -/
theorem gdma_one_shot (s : MMU) (v : Nat)
    (hgb : s.gbmode = GbMode.Color)
    (hst : s.hdma_status ≠ DMAType.HDMA)
    (hv : v &&& 0x80 = 0) (hv256 : v < 256)
    (h0 : s.hdma0 < 256) (h1 : s.hdma1 < 256)
    (hleg : ((s.hdma0 <<< 8) ||| s.hdma1) ≤ 0x7FF0 ∨
       (0xA000 ≤ (s.hdma0 <<< 8) ||| s.hdma1 ∧ (s.hdma0 <<< 8) ||| s.hdma1 ≤ 0xDFF0)) :
    ∃ s1 : MMU, s.wb 0xFF55 v = some s1 ∧
      (s1.perform_vramdma).2 = ((v &&& 0x7F) + 1) * 8 ∧
      (s1.perform_vramdma).1.hdma_status = DMAType.NoDMA ∧
      (s1.perform_vramdma).1.hdma_len = 0x7F ∧
      (s1.perform_vramdma).1.hdma_src =
        (((s.hdma0 <<< 8) ||| s.hdma1) + 0x10 * ((v &&& 0x7F) + 1)) % 0x10000 ∧
      (s1.perform_vramdma).1.rb 0xFF55 = 0xFF := by
  have hv80 : v &&& 0x80 ≠ 0x80 := by rw [hv]; decide
  obtain ⟨s1, hs1⟩ : ∃ s1 : MMU, s1 = { s with
      hdma_src := (s.hdma0 <<< 8) ||| s.hdma1
      hdma_dst := (((s.hdma2 <<< 8) ||| s.hdma3) ||| 0x8000) % 0x10000
      hdma_len := v &&& 0x7F
      hdma_status := DMAType.GDMA } := ⟨_, rfl⟩
  have e1 : s1.hdma_len = v &&& 0x7F := by rw [hs1]
  have e2 : s1.hdma_status = DMAType.GDMA := by rw [hs1]
  have e3 : s1.gbmode = GbMode.Color := by rw [hs1]; exact hgb
  have e4 : s1.hdma_src = (s.hdma0 <<< 8) ||| s.hdma1 := by rw [hs1]
  have hlen7f : v &&& 0x7F ≤ 0x7F := Nat.and_le_right
  have hsrclt : s1.hdma_src < 0x10000 := by
    rw [e4]
    have hsh : s.hdma0 <<< 8 < 0x10000 := by
      rw [Nat.shiftLeft_eq]
      norm_num
      omega
    exact Nat.or_lt_two_pow (n := 16) hsh (by omega)
  have hpv : s1.perform_vramdma = s1.perform_gdma := by
    simp [MMU.perform_vramdma, e2]
  have hgd : s1.perform_gdma =
      ({ MMU.iterRow (s1.hdma_len + 1) s1 with hdma_status := DMAType.NoDMA },
        (s1.hdma_len + 1) * 8) := rfl
  have hit := iterRow_proj (s1.hdma_len + 1) s1
  have hitlen := iterRow_len (s1.hdma_len + 1) s1 (by omega)
  refine ⟨s1, ?_, ?_, ?_, ?_, ?_, ?_⟩
  · rw [hs1]
    simp [MMU.wb, MMU.wbNoDma, MMU.hdma_write, hgb, hst, hleg, hv80,
      Nat.mod_eq_of_lt hv256]
  · rw [hpv, hgd, e1]
  · rw [hpv, hgd]
  · rw [hpv, hgd]
    show (MMU.iterRow (s1.hdma_len + 1) s1).hdma_len = 0x7F
    rw [hitlen]
    simp
  · rw [hpv, hgd]
    show (MMU.iterRow (s1.hdma_len + 1) s1).hdma_src = _
    rw [hit.2.2 hsrclt, e4, e1]
  · have hfgb : ((s1.perform_vramdma).1).gbmode = GbMode.Color := by
      rw [hpv, hgd]
      show (MMU.iterRow (s1.hdma_len + 1) s1).gbmode = _
      rw [hit.2.1, e3]
    have hfst : ((s1.perform_vramdma).1).hdma_status = DMAType.NoDMA := by
      rw [hpv, hgd]
    have hflen : ((s1.perform_vramdma).1).hdma_len = 0x7F := by
      rw [hpv, hgd]
      show (MMU.iterRow (s1.hdma_len + 1) s1).hdma_len = 0x7F
      rw [hitlen]
      simp
    simp [MMU.rb, MMU.hdma_read, hfgb, hfst, hflen]

/-- A concrete color-mode state whose source registers assemble to the
legal DMA source 0x1000. -/
def mGdmaStart : MMU := { mColor with hdma0 := 0x10 }

/-- Witness for C6: a one-shot transfer with length byte 3 from source
0x1000 copies 4 rows, takes 32 ticks and clears. -/
theorem gdma_one_shot_w :
    ∃ s1 : MMU, mGdmaStart.wb 0xFF55 3 = some s1 ∧
      (s1.perform_vramdma).2 = ((3 &&& 0x7F) + 1) * 8 ∧
      (s1.perform_vramdma).1.hdma_status = DMAType.NoDMA ∧
      (s1.perform_vramdma).1.hdma_len = 0x7F ∧
      (s1.perform_vramdma).1.hdma_src =
        (((mGdmaStart.hdma0 <<< 8) ||| mGdmaStart.hdma1) + 0x10 * ((3 &&& 0x7F) + 1)) % 0x10000 ∧
      (s1.perform_vramdma).1.rb 0xFF55 = 0xFF :=
  gdma_one_shot mGdmaStart 3 rfl (by decide) (by decide) (by decide)
    (by decide) (by decide) (Or.inl (by decide))

/-! ## C9: mirror determinism -/

/-- Mirror offsets 4 and above do not depend on the frame counter. -/
theorem mirrorBytes_fc_indep (w : Nat → Nat) (f1 f2 i : Nat) (h : 4 ≤ i) :
    MMU.mirrorBytes w f1 i = MMU.mirrorBytes w f2 i := by
  unfold MMU.mirrorBytes
  have hn : ¬ i < 4 := by omega
  rw [if_neg hn, if_neg hn]

/-- The little-endian word at mirror offsets 0x000–0x003 after a derivation
is the incremented (mod 2^32) frame counter. -/
theorem frameWord_of_mirror (t : MMU) :
    MMU.mirrorFrameWord (MMU.write_mirror t).wram_mirror =
      (t.frame_counter + 1) % 4294967296 := by
  show ((t.frame_counter + 1) % 4294967296) % 256 +
      256 * ((((t.frame_counter + 1) % 4294967296) >>> 8) % 256) +
      65536 * ((((t.frame_counter + 1) % 4294967296) >>> 16) % 256) +
      16777216 * ((((t.frame_counter + 1) % 4294967296) >>> 24) % 256) =
      (t.frame_counter + 1) % 4294967296
  rw [Nat.shiftRight_eq_div_pow, Nat.shiftRight_eq_div_pow, Nat.shiftRight_eq_div_pow]
  have h : (t.frame_counter + 1) % 4294967296 < 4294967296 := Nat.mod_lt _ (by norm_num)
  norm_num
  omega

/-- C9: deriving the mirror twice over unchanged working memory yields
byte-for-byte identical buffers at every offset from 4 to the end, while
the little-endian frame-counter field at offsets 0x000–0x003 increments by
exactly 1 (wrapping at 2^32) per invocation. -/
theorem mirror_determinism (s : MMU) :
    (∀ i, 4 ≤ i → i < 0x68 →
      (MMU.write_mirror (MMU.write_mirror s)).wram_mirror i =
        (MMU.write_mirror s).wram_mirror i) ∧
    MMU.mirrorFrameWord (MMU.write_mirror (MMU.write_mirror s)).wram_mirror =
      (MMU.mirrorFrameWord (MMU.write_mirror s).wram_mirror + 1) % 4294967296 := by
  constructor
  · intro i h4 h68
    by_cases hi : i < 0x5A
    · show (if i < 0x5A then
          MMU.mirrorBytes (MMU.write_mirror s).wram
            (((MMU.write_mirror s).frame_counter + 1) % 4294967296) i
        else (MMU.write_mirror s).wram_mirror i) = _
      rw [if_pos hi]
      show MMU.mirrorBytes s.wram _ i = _
      show _ = (if i < 0x5A then
          MMU.mirrorBytes s.wram ((s.frame_counter + 1) % 4294967296) i
        else s.wram_mirror i)
      rw [if_pos hi]
      exact mirrorBytes_fc_indep _ _ _ _ h4
    · show (if i < 0x5A then
          MMU.mirrorBytes (MMU.write_mirror s).wram
            (((MMU.write_mirror s).frame_counter + 1) % 4294967296) i
        else (MMU.write_mirror s).wram_mirror i) = _
      rw [if_neg hi]
  · rw [frameWord_of_mirror (MMU.write_mirror s), frameWord_of_mirror s]
    rfl

/-- Witness for C9 at the concrete state and offset 0x10. -/
theorem mirror_determinism_w :
    (MMU.write_mirror (MMU.write_mirror mColor)).wram_mirror 0x10 =
      (MMU.write_mirror mColor).wram_mirror 0x10 ∧
    MMU.mirrorFrameWord (MMU.write_mirror (MMU.write_mirror mColor)).wram_mirror =
      (MMU.mirrorFrameWord (MMU.write_mirror mColor).wram_mirror + 1) % 4294967296 :=
  ⟨(mirror_determinism mColor).1 0x10 (by norm_num) (by norm_num),
   (mirror_determinism mColor).2⟩

/-! ## C1: money decode -/

/-- C1: with the binary-coded-decimal source bytes [0x01, 0x23, 0x45] at
the money address 0xD573, the derivation writes 13569 (little-endian) into
the mirror money field at 0x050–0x053 — the raw-byte formula
0x01 * 10000 + 0x23 * 100 + 0x45 — whereas decoding those bytes as BCD (as
the claim, the spec and the code's own comments state) gives 12345. -/
theorem money_bcd_divergence :
    MMU.mirrorMoneyWord (MMU.write_mirror mBcd).wram_mirror = 13569 ∧
    (13569 : Nat) ≠ 12345 := by
  constructor
  · decide
  · decide

/-! ## C10: Python binding constructor dispatch -/

/-- C10: Env::new in the Python binding maps classic_mode = true (and only
true) to the color-mode constructor Device::new_cgb, and classic_mode =
false or absent (the default) to the classic-mode constructor Device::new —
the selector picks the opposite console mode from its name. -/
theorem env_classic_mode_inverted :
    envNewCtor (some true) = DeviceCtor.NewCgb ∧
    envNewCtor (some false) = DeviceCtor.New ∧
    envNewCtor none = DeviceCtor.New ∧
    (∀ c : Option Bool, envNewCtor c = DeviceCtor.NewCgb ↔ c = some true) ∧
    (∀ r : Nat, deviceCtorGbmode DeviceCtor.New r = GbMode.Classic) ∧
    (∀ r : Nat, deviceCtorGbmode DeviceCtor.NewCgb r ≠ GbMode.Classic) := by
  refine ⟨rfl, rfl, rfl, ?_, fun r => rfl, ?_⟩
  · rintro (_ | b)
    · simp [envNewCtor]
    · cases b <;> simp [envNewCtor]
  · intro r
    show mmuNewCgbGbmode r ≠ GbMode.Classic
    unfold mmuNewCgbGbmode
    split
    · decide
    · decide

end RGirl
